import Mathlib

/-!
# Sunday-school attendance backend: shallow embedding and verification

Shallow embedding of the Express/Prisma backend in `src/app.ts`
(`POST /register`, `POST /login`, `GET /export-attendance`) together with
the SQLite schema (`User`, `Attendance` tables).

Modelling conventions:
* Machine time is a `Nat` counting milliseconds since the Unix epoch, in
  the server's local timezone (the code only ever compares times and
  truncates them to local midnight, so a single fixed offset is absorbed
  into the epoch).
* A JSON body field that is absent and one that is the empty string are
  identified: both are falsy in the `if (!name || ...)` validation guards,
  and the code distinguishes them nowhere else.  Request fields are plain
  `String`s with `""` standing for "empty or missing".
* `bcrypt.hash` and `bcrypt.compare` are external primitives; the
  operations are parametric in a hash function `bhash : String → String`
  and a comparison `bcompare : String → String → Bool` (submitted pin,
  stored digest).
* The Prisma store is a `Store`: the `User` and `Attendance` tables as
  lists in insertion order plus the autoincrement counters.
  `findUnique`/`findFirst` become `List.find?`, `findMany` with a filter
  becomes `List.filter`, `create` appends the new row.
* Each request observes a single time `now`: the `new Date()` read by the
  handler and the `CURRENT_TIMESTAMP` default applied by the row insert of
  the same request coincide (sequential, one-clock model).
-/

/-- A row of the `User` table:
`User(id PK autoincrement, name, email UNIQUE, phone, department, pin, createdAt)`. -/
structure User where
  id : Nat
  name : String
  email : String
  phone : String
  department : String
  pin : String
  createdAt : Nat
  deriving Repr, DecidableEq

/-- A row of the `Attendance` table:
`Attendance(id PK autoincrement, date default CURRENT_TIMESTAMP, userId FK)`. -/
structure AttendanceRecord where
  id : Nat
  date : Nat
  userId : Nat
  deriving Repr, DecidableEq

/-- The Prisma-managed SQLite database: both tables in insertion order,
plus the two autoincrement counters. -/
structure Store where
  users : List User
  attendances : List AttendanceRecord
  nextUserId : Nat
  nextAttendanceId : Nat
  deriving Repr, DecidableEq

/-- Milliseconds per calendar day. -/
def msPerDay : Nat := 86400000

/-- `new Date(today.setHours(0, 0, 0, 0))`: `now` truncated to local
midnight. -/
def startOfDay (t : Nat) : Nat := t / msPerDay * msPerDay

/-- `prisma.user.findUnique({ where: { email } })`. The schema's unique
index on `email` makes the first match the only match. -/
def findUserByEmail (s : Store) (email : String) : Option User :=
  s.users.find? (fun u => u.email == email)

/-- `prisma.attendance.findFirst({ where: { userId, date: { gte: startOfDay } } })`. -/
def findTodayAttendance (s : Store) (uid : Nat) (now : Nat) : Option AttendanceRecord :=
  s.attendances.find? (fun a => a.userId == uid && decide (startOfDay now ≤ a.date))

/-- `prisma.user.create({ data: { name, email, phone, department, pin } })`:
append the row, `id` from the autoincrement counter, `createdAt` defaulted
to the current timestamp. -/
def createUser (s : Store) (name email phone department pin : String) (now : Nat) : Store :=
  { s with
      users := s.users ++ [⟨s.nextUserId, name, email, phone, department, pin, now⟩]
      nextUserId := s.nextUserId + 1 }

/-- `prisma.attendance.create({ data: { userId } })`: append the row, `id`
from the autoincrement counter, `date` defaulted to the current timestamp. -/
def createAttendance (s : Store) (uid : Nat) (now : Nat) : Store :=
  { s with
      attendances := s.attendances ++ [⟨s.nextAttendanceId, now, uid⟩]
      nextAttendanceId := s.nextAttendanceId + 1 }

/-- Outcome of `POST /register`. The success payload carries exactly what
the handler sends: the message and `user: { id, email }` — no pin field
exists in the response type. -/
inductive RegisterResult where
  | validationError
  | duplicateEmailError
  | ok (message : String) (userId : Nat) (userEmail : String)
  deriving Repr, DecidableEq

/-- HTTP status attached to each `POST /register` outcome. -/
def RegisterResult.status : RegisterResult → Nat
  | .validationError => 400
  | .duplicateEmailError => 400
  | .ok _ _ _ => 200

/-- Success message of `POST /register` (string interpolation of the name). -/
def registerMessage (name : String) : String :=
  "Welcome aboard, " ++ name ++ "! Your account has been created successfully."

/-- `POST /register`: validate the five fields, reject a duplicate email,
hash the pin, create the user, echo id and email. -/
def register (bhash : String → String) (now : Nat)
    (name email phone department pin : String) (s : Store) :
    RegisterResult × Store :=
  if name = "" ∨ email = "" ∨ phone = "" ∨ department = "" ∨ pin = "" then
    (.validationError, s)
  else
    match findUserByEmail s email with
    | some _ => (.duplicateEmailError, s)
    | none =>
      let hashedPin := bhash pin
      (.ok (registerMessage name) s.nextUserId email,
       createUser s name email phone department hashedPin now)

/-- Outcome of `POST /login`. -/
inductive LoginResult where
  | validationError
  | notFoundError
  | invalidCredentialsError
  | ok (message : String)
  deriving Repr, DecidableEq

/-- HTTP status attached to each `POST /login` outcome. -/
def LoginResult.status : LoginResult → Nat
  | .validationError => 400
  | .notFoundError => 404
  | .invalidCredentialsError => 401
  | .ok _ => 200

/-- Message sent when the login inserts the day's attendance row. -/
def markedMessage : String :=
  "Attendance successfully marked. Have a great day!"

/-- Message sent when a same-day attendance row already exists. -/
def alreadyMarkedMessage : String :=
  "You have already marked your attendance today."

/-- `POST /login`: validate, look the user up by email, compare the pin
against the stored digest, then mark attendance at most once per day. -/
def login (bcompare : String → String → Bool) (now : Nat)
    (email pin : String) (s : Store) : LoginResult × Store :=
  if email = "" ∨ pin = "" then
    (.validationError, s)
  else
    match findUserByEmail s email with
    | none => (.notFoundError, s)
    | some user =>
      if bcompare pin user.pin then
        match findTodayAttendance s user.id now with
        | some _ => (.ok alreadyMarkedMessage, s)
        | none => (.ok markedMessage, createAttendance s user.id now)
      else
        (.invalidCredentialsError, s)

/-! ## Export: date rendering, row projection, CSV serialization -/

/-- Two-digit zero padding, as produced by the `2-digit` time options. -/
def pad2 (n : Nat) : String :=
  if n < 10 then "0" ++ toString n else toString n

/-- Four-digit zero padding for the year of an ISO date. -/
def pad4 (n : Nat) : String :=
  if n < 10 then "000" ++ toString n
  else if n < 100 then "00" ++ toString n
  else if n < 1000 then "0" ++ toString n
  else toString n

/-- Proleptic Gregorian civil date `(year, month, day)` from a count of
days since 1970-01-01 (days ≥ 0). -/
def civilFromDays (days : Nat) : Nat × Nat × Nat :=
  let z := days + 719468
  let era := z / 146097
  let doe := z % 146097
  let yoe := (doe - doe / 1460 + doe / 36524 - doe / 146096) / 365
  let doy := doe - (365 * yoe + yoe / 4 - yoe / 100)
  let mp := (5 * doy + 2) / 153
  let d := doy - (153 * mp + 2) / 5 + 1
  let m := if mp < 10 then mp + 3 else mp - 9
  let y := yoe + era * 400 + (if m ≤ 2 then 1 else 0)
  (y, m, d)

/-- `date.toISOString().split("T")[0]`: the `YYYY-MM-DD` part of the
timestamp. -/
def isoDateString (t : Nat) : String :=
  let c := civilFromDays (t / msPerDay)
  pad4 c.1 ++ "-" ++ pad2 c.2.1 ++ "-" ++ pad2 c.2.2

/-- `date.toLocaleTimeString("en-US", ...)` with 2-digit hour, minute and
second and `hour12: true`: localized 12-hour `hh:mm:ss AM/PM`. -/
def timeString (t : Nat) : String :=
  let ms := t % msPerDay
  let h := ms / 3600000
  let m := ms / 60000 % 60
  let sec := ms / 1000 % 60
  let h12 := if h % 12 = 0 then 12 else h % 12
  let suffix := if h < 12 then "AM" else "PM"
  pad2 h12 ++ ":" ++ pad2 m ++ ":" ++ pad2 sec ++ " " ++ suffix

/-- One element of the `data` array built by `attendances.map(...)` in the
export handler. -/
structure ExportRow where
  sn : Nat
  name : String
  email : String
  phone : String
  department : String
  date : String
  time : String
  deriving Repr, DecidableEq

/-- `Object.keys` of a projected row: the seven properties in insertion
order.  Every row built by the export map has exactly this shape. -/
def ExportRow.keys (_ : ExportRow) : List String :=
  ["sn", "name", "email", "phone", "department", "date", "time"]

/-- Placeholder row used to totalize `data[0]`; the export handler only
reads `data[0]` after checking the record set is nonempty. -/
def defaultRow : ExportRow := ⟨0, "", "", "", "", "", ""⟩

/-- The `include: { user: true }` join: the owning `User` row of an
attendance record.  The `Attendance.userId` foreign key (RESTRICT on
delete) guarantees the row exists; the default is unreachable on stores
satisfying the constraint. -/
def joinedUser (s : Store) (uid : Nat) : User :=
  (s.users.find? (fun u => u.id == uid)).getD ⟨0, "", "", "", "", "", 0⟩

/-- `prisma.attendance.findMany({ where: { date: { gte: startOfDay } } })`:
today's attendance rows in table order. -/
def todaysAttendances (s : Store) (now : Nat) : List AttendanceRecord :=
  s.attendances.filter (fun a => decide (startOfDay now ≤ a.date))

/-- The projection `attendances.map((a, index) => ({ sn: index + 1, ... }))`
joined with each record's user.  `a.user.phone + ""` is string
concatenation with the empty string, the identity here because `phone` is
a TEXT column. -/
def projectRow (s : Store) (idx : Nat) (a : AttendanceRecord) : ExportRow :=
  let u := joinedUser s a.userId
  { sn := idx + 1
    name := u.name
    email := u.email
    phone := u.phone ++ ""
    department := u.department
    date := isoDateString a.date
    time := timeString a.date }

/-- The full `data` array of the export handler. -/
def projectRows (s : Store) (atts : List AttendanceRecord) : List ExportRow :=
  atts.enum.map (fun p => projectRow s p.1 p.2)

/-- json2csv default escaping: wrap the value in double quotes, doubling
any embedded double quote. -/
def csvQuote (v : String) : String :=
  "\"" ++ v.replace "\"" "\"\"" ++ "\""

/-- The serialized value of one field of a row (numbers bare, strings
quoted, unknown fields empty), per the json2csv defaults. -/
def csvCell (r : ExportRow) (field : String) : String :=
  if field = "sn" then toString r.sn
  else if field = "name" then csvQuote r.name
  else if field = "email" then csvQuote r.email
  else if field = "phone" then csvQuote r.phone
  else if field = "department" then csvQuote r.department
  else if field = "date" then csvQuote r.date
  else if field = "time" then csvQuote r.time
  else ""

/-- The CSV record lines produced by
`new Json2CsvParser({ fields }).parse(data)`: one header line listing the
field names, then one line per row. -/
def csvLines (fields : List String) (rows : List ExportRow) : List String :=
  String.intercalate "," (fields.map csvQuote) ::
    rows.map (fun r => String.intercalate "," (fields.map (csvCell r)))

/-- The CSV text: record lines joined by the default end-of-line. -/
def csvContent (fields : List String) (rows : List ExportRow) : String :=
  String.intercalate "\n" (csvLines fields rows)

/-- One body line of the PDF: `sn. name | email | phone | department | date time`. -/
def pdfLine (idx : Nat) (r : ExportRow) : String :=
  toString (idx + 1) ++ ". " ++ r.name ++ " | " ++ r.email ++ " | " ++ r.phone ++
    " | " ++ r.department ++ " | " ++ r.date ++ " " ++ r.time

/-- Outcome of `GET /export-attendance`.  File outcomes carry the
attachment filename and the rendered content. -/
inductive ExportResult where
  | noDataError
  | unsupportedFormatError
  | csvFile (filename : String) (content : String)
  | pdfFile (filename : String) (title : String) (body : List String)
  deriving Repr, DecidableEq

/-- HTTP status attached to each `GET /export-attendance` outcome. -/
def ExportResult.status : ExportResult → Nat
  | .noDataError => 404
  | .unsupportedFormatError => 400
  | .csvFile _ _ => 200
  | .pdfFile _ _ _ => 200

/-- `GET /export-attendance?format=...`.  `format` is `none` when the
query parameter is omitted.  `today.setHours(0,0,0,0)` mutates `today` in
place, so the attachment filenames render the day's midnight.  The empty
check on the fetched record set precedes the format dispatch, and the
format fall-through is the terminal branch. -/
def exportAttendance (format : Option String) (now : Nat) (s : Store) : ExportResult :=
  let sod := startOfDay now
  let atts := todaysAttendances s now
  if atts.length = 0 then
    .noDataError
  else
    let data := projectRows s atts
    let fields := ((data.head?).getD defaultRow).keys
    if format = some "csv" then
      .csvFile ("attendance-" ++ isoDateString sod ++ ".csv") (csvContent fields data)
    else if format = some "pdf" then
      .pdfFile ("attendance-" ++ isoDateString sod ++ ".pdf")
        "Daily Attendance Report"
        (data.enum.map (fun p => pdfLine p.1 p.2))
    else
      .unsupportedFormatError

/-! ### Sanity checks on the embedding (concrete evaluations) -/

/-- Concrete hash used in the closed witnesses: prefix the pin with `H`. -/
def bhashW (pin : String) : String := "H" ++ pin

/-- Concrete bcrypt comparison matching `bhashW`. -/
def bcompareW (pin digest : String) : Bool := digest == "H" ++ pin

/-- The empty store. -/
def emptyStore : Store := ⟨[], [], 1, 1⟩

example : civilFromDays 0 = (1970, 1, 1) := by decide
example : isoDateString 0 = "1970-01-01" := by rfl
example : timeString 0 = "12:00:00 AM" := by rfl

/-! ## Witness fixtures -/

/-- A registered user whose stored pin is the digest `bhashW "1234"`. -/
def userW : User := ⟨1, "Ann", "a@x.com", "555", "Eng", "H1234", 0⟩

/-- A store holding `userW` and one attendance record at time 1000 (day 0). -/
def storeW : Store := ⟨[userW], [⟨1, 1000, 1⟩], 2, 2⟩

/-- A store holding `userW` and one attendance record from a prior day
(time 500, day 0). -/
def storeOldW : Store := ⟨[userW], [⟨1, 500, 1⟩], 2, 2⟩

/-! ## C9: register validation -/

/-- **C9.** A register request in which any of the five fields (name,
email, phone, department, pin) is empty or missing returns
`ValidationError` (HTTP 400) and creates no `User`: the store is
unchanged. -/
theorem register_missing_field_rejected
    (bhash : String → String) (now : Nat) (s : Store)
    (name email phone department pin : String)
    (h : name = "" ∨ email = "" ∨ phone = "" ∨ department = "" ∨ pin = "") :
    register bhash now name email phone department pin s =
      (RegisterResult.validationError, s) ∧
    (register bhash now name email phone department pin s).1.status = 400 := by
  have hreg : register bhash now name email phone department pin s =
      (RegisterResult.validationError, s) := by
    unfold register
    rw [if_pos h]
  exact ⟨hreg, by rw [hreg]; rfl⟩

/-- Closed witness for C9: an empty email field is rejected. -/
theorem register_missing_field_rejected_witness :
    register bhashW 1000 "Ann" "" "555" "Eng" "1234" emptyStore =
      (RegisterResult.validationError, emptyStore) ∧
    (register bhashW 1000 "Ann" "" "555" "Eng" "1234" emptyStore).1.status = 400 :=
  register_missing_field_rejected bhashW 1000 emptyStore "Ann" "" "555" "Eng" "1234"
    (Or.inr (Or.inl rfl))

/-! ## C5: unrecognized export format -/

/-- **C5.** An export request whose `format` is neither `csv` nor `pdf`
(a missing `format` included) returns `UnsupportedFormatError` (HTTP 400)
whenever records exist for the current day. -/
theorem export_unrecognized_format_rejected
    (format : Option String) (now : Nat) (s : Store)
    (hne : todaysAttendances s now ≠ [])
    (hcsv : format ≠ some "csv") (hpdf : format ≠ some "pdf") :
    exportAttendance format now s = ExportResult.unsupportedFormatError ∧
    (exportAttendance format now s).status = 400 := by
  have hlen : ¬ (todaysAttendances s now).length = 0 := by
    simpa [List.length_eq_zero] using hne
  simp [exportAttendance, hlen, hcsv, hpdf, ExportResult.status]

/-- Closed witness for C5: an omitted `format` on a day with one record. -/
theorem export_unrecognized_format_rejected_witness :
    exportAttendance none 1000 storeW = ExportResult.unsupportedFormatError ∧
    (exportAttendance none 1000 storeW).status = 400 :=
  export_unrecognized_format_rejected none 1000 storeW
    (by decide) (by decide) (by decide)

/-! ## C6: empty day export -/

/-- **C6.** For every export request, of any format, if no
`AttendanceRecord` has a timestamp at or after the current day's local
midnight, the result is `NoDataError` (HTTP 404) — prior-day records in
the store do not matter. -/
theorem export_empty_day_no_data
    (format : Option String) (now : Nat) (s : Store)
    (h : todaysAttendances s now = []) :
    exportAttendance format now s = ExportResult.noDataError ∧
    (exportAttendance format now s).status = 404 := by
  simp [exportAttendance, h, ExportResult.status]

/-- Closed witness for C6: a store with one prior-day record (time 500 of
day 0) exported on day 1 with `format=csv`. -/
theorem export_empty_day_no_data_witness :
    exportAttendance (some "csv") (msPerDay + 5) storeOldW = ExportResult.noDataError ∧
    (exportAttendance (some "csv") (msPerDay + 5) storeOldW).status = 404 :=
  export_empty_day_no_data (some "csv") (msPerDay + 5) storeOldW (by decide)

/-! ## C10: empty check precedes format check -/

/-- **C10.** The empty-result check precedes format validation: with an
unrecognized or missing `format` and no record dated at or after today's
local midnight, the export returns `NoDataError` (HTTP 404), not
`UnsupportedFormatError` (HTTP 400). -/
theorem export_empty_check_precedes_format
    (format : Option String) (now : Nat) (s : Store)
    (_hcsv : format ≠ some "csv") (_hpdf : format ≠ some "pdf")
    (h : todaysAttendances s now = []) :
    exportAttendance format now s = ExportResult.noDataError ∧
    exportAttendance format now s ≠ ExportResult.unsupportedFormatError ∧
    (exportAttendance format now s).status = 404 := by
  simp [exportAttendance, h, ExportResult.status]

/-- Closed witness for C10: an omitted `format` on a day without records. -/
theorem export_empty_check_precedes_format_witness :
    exportAttendance none (msPerDay + 5) storeOldW = ExportResult.noDataError ∧
    exportAttendance none (msPerDay + 5) storeOldW ≠ ExportResult.unsupportedFormatError ∧
    (exportAttendance none (msPerDay + 5) storeOldW).status = 404 :=
  export_empty_check_precedes_format none (msPerDay + 5) storeOldW
    (by decide) (by decide) (by decide)

/-! ## C3: wrong pin -/

/-- Counterexample to C3 as stated.  The request `{email: "a@x.com", pin: ""}`
has an email matching the stored `userW` and a pin that fails the hash
comparison, yet the login returns the `ValidationError` (HTTP 400) of the
`if (!email || !pin)` guard, not `InvalidCredentialsError` (HTTP 401) —
the guard runs before `bcrypt.compare` is ever reached. -/
theorem login_wrong_pin_as_stated_fails :
    findUserByEmail storeW "a@x.com" = some userW ∧
    bcompareW "" userW.pin = false ∧
    (login bcompareW 1000 "a@x.com" "" storeW).1 ≠ LoginResult.invalidCredentialsError ∧
    (login bcompareW 1000 "a@x.com" "" storeW).1.status = 400 := by
  decide

/-- **C3 (amended).** For every login request with non-empty email and
pin whose email matches a stored `User` but whose pin fails the hash
comparison against that user's stored digest, the operation returns
`InvalidCredentialsError` (HTTP 401) and the store — the Attendance
Ledger included — is unchanged. -/
theorem login_wrong_pin_rejected
    (bcompare : String → String → Bool) (now : Nat) (s : Store)
    (email pin : String) (u : User)
    (he : email ≠ "") (hp : pin ≠ "")
    (hu : findUserByEmail s email = some u)
    (hbad : bcompare pin u.pin = false) :
    login bcompare now email pin s = (LoginResult.invalidCredentialsError, s) ∧
    (login bcompare now email pin s).1.status = 401 := by
  have hl : login bcompare now email pin s = (LoginResult.invalidCredentialsError, s) := by
    simp [login, he, hp, hu, hbad]
  exact ⟨hl, by rw [hl]; rfl⟩

/-- Closed witness for the amended C3: a wrong four-digit pin. -/
theorem login_wrong_pin_rejected_witness :
    login bcompareW 1000 "a@x.com" "9999" storeW = (LoginResult.invalidCredentialsError, storeW) ∧
    (login bcompareW 1000 "a@x.com" "9999" storeW).1.status = 401 :=
  login_wrong_pin_rejected bcompareW 1000 storeW "a@x.com" "9999" userW
    (by decide) (by decide) (by decide) (by decide)

/-! ## C8: pin stored only as a digest -/

/-- **C8.** A successful register call stores the user with `pin` equal
to the digest `bhash pin` of the submitted pin — the stored row is
exactly the submitted fields with the pin replaced by its hash — and the
response is `ok` carrying only the message, the new user's id and its
email (the `RegisterResult.ok` payload has no pin component). -/
theorem register_stores_hashed_pin
    (bhash : String → String) (now : Nat) (s : Store)
    (name email phone department pin : String)
    (hn : name ≠ "") (he : email ≠ "") (hph : phone ≠ "")
    (hd : department ≠ "") (hp : pin ≠ "")
    (hfresh : findUserByEmail s email = none) :
    register bhash now name email phone department pin s =
      (RegisterResult.ok (registerMessage name) s.nextUserId email,
       createUser s name email phone department (bhash pin) now) ∧
    (register bhash now name email phone department pin s).2.users.getLast? =
      some ⟨s.nextUserId, name, email, phone, department, bhash pin, now⟩ := by
  have hcond : ¬ (name = "" ∨ email = "" ∨ phone = "" ∨ department = "" ∨ pin = "") := by
    simp [hn, he, hph, hd, hp]
  have hreg : register bhash now name email phone department pin s =
      (RegisterResult.ok (registerMessage name) s.nextUserId email,
       createUser s name email phone department (bhash pin) now) := by
    unfold register
    rw [if_neg hcond, hfresh]
  refine ⟨hreg, ?_⟩
  rw [hreg]
  simp [createUser, List.getLast?_concat]

/-- Closed witness for C8: registering Ann stores the digest `H1234` of
pin `1234`. -/
theorem register_stores_hashed_pin_witness :
    register bhashW 1000 "Ann" "a@x.com" "555" "Eng" "1234" emptyStore =
      (RegisterResult.ok (registerMessage "Ann") 1 "a@x.com",
       createUser emptyStore "Ann" "a@x.com" "555" "Eng" (bhashW "1234") 1000) ∧
    (register bhashW 1000 "Ann" "a@x.com" "555" "Eng" "1234" emptyStore).2.users.getLast? =
      some ⟨1, "Ann", "a@x.com", "555", "Eng", bhashW "1234", 1000⟩ :=
  register_stores_hashed_pin bhashW 1000 emptyStore "Ann" "a@x.com" "555" "Eng" "1234"
    (by decide) (by decide) (by decide) (by decide) (by decide) (by decide)

/-! ## C7: first login of the day inserts a record timestamped now -/

/-- **C7.** A successful login that finds no existing same-day attendance
record appends one new `AttendanceRecord` whose `date` is `now`, the time
observed by the request, and returns the `marked` message. -/
theorem login_first_of_day_inserts_now
    (bcompare : String → String → Bool) (now : Nat) (s : Store)
    (email pin : String) (u : User)
    (he : email ≠ "") (hp : pin ≠ "")
    (hu : findUserByEmail s email = some u)
    (hpin : bcompare pin u.pin = true)
    (hnone : findTodayAttendance s u.id now = none) :
    login bcompare now email pin s = (LoginResult.ok markedMessage, createAttendance s u.id now) ∧
    (login bcompare now email pin s).2.attendances =
      s.attendances ++ [⟨s.nextAttendanceId, now, u.id⟩] := by
  have hl : login bcompare now email pin s =
      (LoginResult.ok markedMessage, createAttendance s u.id now) := by
    simp [login, he, hp, hu, hpin, hnone]
  exact ⟨hl, by rw [hl]; rfl⟩

/-- Closed witness for C7: Ann's first login of day 0 at time 1000. -/
theorem login_first_of_day_inserts_now_witness :
    login bcompareW 1000 "a@x.com" "1234" ⟨[userW], [], 2, 1⟩ =
      (LoginResult.ok markedMessage, createAttendance ⟨[userW], [], 2, 1⟩ 1 1000) ∧
    (login bcompareW 1000 "a@x.com" "1234" ⟨[userW], [], 2, 1⟩).2.attendances =
      [] ++ [⟨1, 1000, 1⟩] :=
  login_first_of_day_inserts_now bcompareW 1000 ⟨[userW], [], 2, 1⟩ "a@x.com" "1234" userW
    (by decide) (by decide) (by decide) (by decide) (by decide)

/-! ## C2: duplicate registration -/

/-- Number of stored users carrying a given email. -/
def emailCount (s : Store) (email : String) : Nat :=
  (s.users.filter (fun u => u.email == email)).length

/-- **C2.** Registering the same email twice (all fields of both calls
non-empty, the email initially unregistered) creates the user on the
first call, leaves exactly one stored user with that email, and the
second call returns `DuplicateEmailError` (HTTP 400) without mutating the
store. -/
theorem register_twice_same_email
    (bhash : String → String) (t₁ t₂ : Nat) (s : Store)
    (name email phone department pin name₂ phone₂ department₂ pin₂ : String)
    (hn : name ≠ "") (he : email ≠ "") (hph : phone ≠ "")
    (hd : department ≠ "") (hp : pin ≠ "")
    (hn₂ : name₂ ≠ "") (hph₂ : phone₂ ≠ "")
    (hd₂ : department₂ ≠ "") (hp₂ : pin₂ ≠ "")
    (hfresh : findUserByEmail s email = none) :
    (register bhash t₁ name email phone department pin s).1 =
      RegisterResult.ok (registerMessage name) s.nextUserId email ∧
    emailCount (register bhash t₁ name email phone department pin s).2 email = 1 ∧
    register bhash t₂ name₂ email phone₂ department₂ pin₂
        (register bhash t₁ name email phone department pin s).2 =
      (RegisterResult.duplicateEmailError,
       (register bhash t₁ name email phone department pin s).2) ∧
    (register bhash t₂ name₂ email phone₂ department₂ pin₂
        (register bhash t₁ name email phone department pin s).2).1.status = 400 := by
  have hfresh' : s.users.find? (fun u => u.email == email) = none := hfresh
  have hreg1 : register bhash t₁ name email phone department pin s =
      (RegisterResult.ok (registerMessage name) s.nextUserId email,
       createUser s name email phone department (bhash pin) t₁) := by
    simp [register, he, hn, hph, hd, hp, hfresh]
  have hfilter : s.users.filter (fun u => u.email == email) = [] := by
    rw [List.filter_eq_nil_iff]
    intro u hu
    simpa using List.find?_eq_none.mp hfresh' u hu
  have hcount : emailCount (createUser s name email phone department (bhash pin) t₁) email = 1 := by
    unfold emailCount createUser
    simp [List.filter_append, hfilter]
  have hu₁ : findUserByEmail (createUser s name email phone department (bhash pin) t₁) email =
      some ⟨s.nextUserId, name, email, phone, department, bhash pin, t₁⟩ := by
    unfold findUserByEmail createUser
    rw [List.find?_append, hfresh']
    simp
  have hreg2 : register bhash t₂ name₂ email phone₂ department₂ pin₂
      (createUser s name email phone department (bhash pin) t₁) =
      (RegisterResult.duplicateEmailError,
       createUser s name email phone department (bhash pin) t₁) := by
    simp [register, he, hn₂, hph₂, hd₂, hp₂, hu₁]
  rw [hreg1]
  exact ⟨rfl, hcount, hreg2, by rw [hreg2]; rfl⟩

/-- Closed witness for C2: Ann registers `a@x.com`, then Bob tries the
same email. -/
theorem register_twice_same_email_witness :
    (register bhashW 1000 "Ann" "a@x.com" "555" "Eng" "1234" emptyStore).1 =
      RegisterResult.ok (registerMessage "Ann") 1 "a@x.com" ∧
    emailCount (register bhashW 1000 "Ann" "a@x.com" "555" "Eng" "1234" emptyStore).2
      "a@x.com" = 1 ∧
    register bhashW 2000 "Bob" "a@x.com" "777" "Ops" "5678"
        (register bhashW 1000 "Ann" "a@x.com" "555" "Eng" "1234" emptyStore).2 =
      (RegisterResult.duplicateEmailError,
       (register bhashW 1000 "Ann" "a@x.com" "555" "Eng" "1234" emptyStore).2) ∧
    (register bhashW 2000 "Bob" "a@x.com" "777" "Ops" "5678"
        (register bhashW 1000 "Ann" "a@x.com" "555" "Eng" "1234" emptyStore).2).1.status = 400 :=
  register_twice_same_email bhashW 1000 2000 emptyStore
    "Ann" "a@x.com" "555" "Eng" "1234" "Bob" "777" "Ops" "5678"
    (by decide) (by decide) (by decide) (by decide) (by decide)
    (by decide) (by decide) (by decide) (by decide) (by decide)

/-! ## C1: at most one attendance record per user per day -/

/-- Number of attendance records of a user dated on the calendar day of `t`. -/
def todayCount (s : Store) (uid : Nat) (t : Nat) : Nat :=
  (s.attendances.filter
    (fun a => a.userId == uid && decide (a.date / msPerDay = t / msPerDay))).length

/-- **C1.** Sequential same-day logins of a registered user mark
attendance exactly once.  Provided all of the user's attendance records
predate today's midnight (in particular when the user has none), the
first successful login inserts one record and answers with the `marked`
message, leaving exactly one record for the user on that day; a
subsequent successful login at any time of the same calendar day answers
with the `already marked` message and leaves the store — hence the
record count — unchanged. -/
theorem login_same_day_exactly_once
    (bcompare : String → String → Bool) (s : Store)
    (email pin : String) (u : User) (t₁ t₂ : Nat)
    (he : email ≠ "") (hp : pin ≠ "")
    (hu : findUserByEmail s email = some u)
    (hpin : bcompare pin u.pin = true)
    (hprior : ∀ a ∈ s.attendances, a.userId = u.id → a.date < startOfDay t₁)
    (hday : t₂ / msPerDay = t₁ / msPerDay) :
    login bcompare t₁ email pin s =
      (LoginResult.ok markedMessage, createAttendance s u.id t₁) ∧
    todayCount (createAttendance s u.id t₁) u.id t₁ = 1 ∧
    login bcompare t₂ email pin (createAttendance s u.id t₁) =
      (LoginResult.ok alreadyMarkedMessage, createAttendance s u.id t₁) := by
  have hmsPos : 0 < msPerDay := by decide
  have hnone : findTodayAttendance s u.id t₁ = none := by
    unfold findTodayAttendance
    rw [List.find?_eq_none]
    intro a ha
    simp only [Bool.and_eq_true, beq_iff_eq, decide_eq_true_eq, not_and]
    intro h1 h2
    exact absurd h2 (Nat.not_le.mpr (hprior a ha h1))
  have hfirst : login bcompare t₁ email pin s =
      (LoginResult.ok markedMessage, createAttendance s u.id t₁) := by
    simp [login, he, hp, hu, hpin, hnone]
  have hdaylt : ∀ a ∈ s.attendances, a.userId = u.id → a.date / msPerDay < t₁ / msPerDay := by
    intro a ha h1
    rw [Nat.div_lt_iff_lt_mul hmsPos]
    exact hprior a ha h1
  have hfilter : s.attendances.filter
      (fun a => a.userId == u.id && decide (a.date / msPerDay = t₁ / msPerDay)) = [] := by
    rw [List.filter_eq_nil_iff]
    intro a ha
    simp only [Bool.and_eq_true, beq_iff_eq, decide_eq_true_eq, not_and]
    intro h1 h2
    exact absurd h2 (Nat.ne_of_lt (hdaylt a ha h1))
  have hcount : todayCount (createAttendance s u.id t₁) u.id t₁ = 1 := by
    unfold todayCount createAttendance
    simp [List.filter_append, hfilter]
  have hsod : startOfDay t₂ = startOfDay t₁ := by
    unfold startOfDay
    rw [hday]
  have hfound : findTodayAttendance (createAttendance s u.id t₁) u.id t₂ =
      some ⟨s.nextAttendanceId, t₁, u.id⟩ := by
    unfold findTodayAttendance createAttendance
    rw [List.find?_append]
    have h0 : s.attendances.find?
        (fun a => a.userId == u.id && decide (startOfDay t₂ ≤ a.date)) = none := by
      rw [List.find?_eq_none]
      intro a ha
      simp only [Bool.and_eq_true, beq_iff_eq, decide_eq_true_eq, not_and]
      intro h1 h2
      rw [hsod] at h2
      exact absurd h2 (Nat.not_le.mpr (hprior a ha h1))
    rw [h0]
    simp [hsod]
    exact Nat.div_mul_le_self t₁ msPerDay
  have hu' : findUserByEmail (createAttendance s u.id t₁) email = some u := hu
  have hsecond : login bcompare t₂ email pin (createAttendance s u.id t₁) =
      (LoginResult.ok alreadyMarkedMessage, createAttendance s u.id t₁) := by
    simp [login, he, hp, hu', hpin, hfound]
  exact ⟨hfirst, hcount, hsecond⟩

/-- Closed witness for C1: Ann logs in at times 1000 and 2000 of day 0. -/
theorem login_same_day_exactly_once_witness :
    login bcompareW 1000 "a@x.com" "1234" ⟨[userW], [], 2, 1⟩ =
      (LoginResult.ok markedMessage, createAttendance ⟨[userW], [], 2, 1⟩ 1 1000) ∧
    todayCount (createAttendance ⟨[userW], [], 2, 1⟩ 1 1000) 1 1000 = 1 ∧
    login bcompareW 2000 "a@x.com" "1234" (createAttendance ⟨[userW], [], 2, 1⟩ 1 1000) =
      (LoginResult.ok alreadyMarkedMessage, createAttendance ⟨[userW], [], 2, 1⟩ 1 1000) :=
  login_same_day_exactly_once bcompareW ⟨[userW], [], 2, 1⟩ "a@x.com" "1234" userW 1000 2000
    (by decide) (by decide) (by decide) (by decide) (by decide) (by decide)

/-! ## C4: CSV shape -/

/-- The serial numbers assigned by the export projection are `1..N` in
query-result order. -/
theorem projectRows_map_sn (s : Store) (atts : List AttendanceRecord) :
    (projectRows s atts).map ExportRow.sn = List.range' 1 atts.length := by
  unfold projectRows
  have h1 : (atts.enum.map (fun p => projectRow s p.1 p.2)).map ExportRow.sn
      = (atts.enum.map Prod.fst).map (· + 1) := by
    rw [List.map_map, List.map_map]
    rfl
  rw [h1, List.enum_map_fst, List.range'_eq_map_range]
  simp [Nat.add_comm]

/-- **C4.** Exporting `format=csv` over `N ≥ 1` of today's attendance
records yields the CSV of the projected rows under the header taken from
the keys of the first projected row; its record-line list is the header
line followed by the `N` data lines — `N + 1` lines in all — and the `sn`
values of the data rows are `1..N` in query-result order. -/
theorem export_csv_header_and_rows
    (now : Nat) (s : Store)
    (hne : todaysAttendances s now ≠ []) :
    exportAttendance (some "csv") now s =
      ExportResult.csvFile ("attendance-" ++ isoDateString (startOfDay now) ++ ".csv")
        (csvContent ((((projectRows s (todaysAttendances s now)).head?).getD defaultRow).keys)
          (projectRows s (todaysAttendances s now))) ∧
    (csvLines ((((projectRows s (todaysAttendances s now)).head?).getD defaultRow).keys)
        (projectRows s (todaysAttendances s now))).length =
      (todaysAttendances s now).length + 1 ∧
    (projectRows s (todaysAttendances s now)).map ExportRow.sn =
      List.range' 1 (todaysAttendances s now).length := by
  have hlen : ¬ (todaysAttendances s now).length = 0 := by
    simpa [List.length_eq_zero] using hne
  refine ⟨?_, ?_, projectRows_map_sn s (todaysAttendances s now)⟩
  · simp [exportAttendance, hlen]
  · simp [csvLines, projectRows]

/-- Closed witness for C4: two records on day 0 exported as CSV. -/
theorem export_csv_header_and_rows_witness :
    exportAttendance (some "csv") 2000 ⟨[userW], [⟨1, 1000, 1⟩, ⟨2, 2000, 1⟩], 2, 3⟩ =
      ExportResult.csvFile ("attendance-" ++ isoDateString (startOfDay 2000) ++ ".csv")
        (csvContent
          ((((projectRows ⟨[userW], [⟨1, 1000, 1⟩, ⟨2, 2000, 1⟩], 2, 3⟩
              (todaysAttendances ⟨[userW], [⟨1, 1000, 1⟩, ⟨2, 2000, 1⟩], 2, 3⟩ 2000)).head?).getD
            defaultRow).keys)
          (projectRows ⟨[userW], [⟨1, 1000, 1⟩, ⟨2, 2000, 1⟩], 2, 3⟩
            (todaysAttendances ⟨[userW], [⟨1, 1000, 1⟩, ⟨2, 2000, 1⟩], 2, 3⟩ 2000))) ∧
    (csvLines
        ((((projectRows ⟨[userW], [⟨1, 1000, 1⟩, ⟨2, 2000, 1⟩], 2, 3⟩
            (todaysAttendances ⟨[userW], [⟨1, 1000, 1⟩, ⟨2, 2000, 1⟩], 2, 3⟩ 2000)).head?).getD
          defaultRow).keys)
        (projectRows ⟨[userW], [⟨1, 1000, 1⟩, ⟨2, 2000, 1⟩], 2, 3⟩
          (todaysAttendances ⟨[userW], [⟨1, 1000, 1⟩, ⟨2, 2000, 1⟩], 2, 3⟩ 2000))).length =
      (todaysAttendances ⟨[userW], [⟨1, 1000, 1⟩, ⟨2, 2000, 1⟩], 2, 3⟩ 2000).length + 1 ∧
    (projectRows ⟨[userW], [⟨1, 1000, 1⟩, ⟨2, 2000, 1⟩], 2, 3⟩
        (todaysAttendances ⟨[userW], [⟨1, 1000, 1⟩, ⟨2, 2000, 1⟩], 2, 3⟩ 2000)).map ExportRow.sn =
      List.range' 1 (todaysAttendances ⟨[userW], [⟨1, 1000, 1⟩, ⟨2, 2000, 1⟩], 2, 3⟩ 2000).length :=
  export_csv_header_and_rows 2000 ⟨[userW], [⟨1, 1000, 1⟩, ⟨2, 2000, 1⟩], 2, 3⟩ (by decide)
